import Mathlib

/-!
BECS: pairing-based pseudonym and certificate protocol (`src/pym/main.cpp`).

A shallow embedding of the protocol code of `main.cpp`.

* The PBC pairing library and OpenSSL are external to the repository.  Their
  interface is the structure `PBC`: the group `G1` (written additively, as the
  code does with `element_add` and `element_mul_zn`), the scalar ring
  `Zr = ZMod r`, the target group `GT`, the pairing, the serialisation of
  group elements and the hash functions.
* `element_random` is modelled by passing the sampled value as an argument.
* Global variables (`g`, `h1`, `h2`, `b1`, `b2`) form the record `State`.
* Out-parameters (`element_t &x`) become fields of a result record.
* `cout` and `cerr` are lists of lines; the lines that print clock
  measurements are left out.
-/

namespace BECS

/-- Byte buffers (`uint8_t` arrays with their length). -/
abbrev Bytes := List (Fin 256)

/-- The macro `SHA256_DIGEST_LENGTH` (main.cpp, line 13). -/
def SHA256_DIGEST_LENGTH : Nat := 32

/-- Interface of the external libraries used by `main.cpp`.

`G1` is the source group of a symmetric (Type A) pairing, of prime order `r`,
`ZMod r` is the ring `Zr`, and `GT` is the target group.  The fields are the
library calls of the program together with the facts the libraries guarantee. -/
structure PBC (r : ℕ) (G1 GT : Type) [AddCommGroup G1] [Module (ZMod r) G1]
    [CommGroup GT] where
  /-- The group order `pairing->r` is a prime. -/
  r_prime : r.Prime
  /-- The order-`r` group `G1` is cyclic. -/
  G1_cyclic : ∃ g0 : G1, ∀ a : G1, ∃ s : ZMod r, a = s • g0
  /-- The call `pairing_apply(out, a, b, pairing)`. -/
  pairing_apply : G1 → G1 → GT
  /-- Bilinearity in the first argument. -/
  pairing_add_left : ∀ a b c, pairing_apply (a + b) c = pairing_apply a c * pairing_apply b c
  /-- Bilinearity in the second argument. -/
  pairing_add_right : ∀ a b c, pairing_apply a (b + c) = pairing_apply a b * pairing_apply a c
  /-- Non-degeneracy. -/
  pairing_nondegenerate : ∀ a, a ≠ 0 → ∃ b, pairing_apply a b ≠ 1
  /-- The call `element_to_bytes(buf, a)` on `G1`, with `element_length_in_bytes`. -/
  element_to_bytes : G1 → Bytes
  /-- The call `element_from_hash(out, hash, len)` for `out` in `Zr`. -/
  element_from_hash_Zr : Bytes → ZMod r
  /-- The call `element_from_hash(out, hash, len)` for `out` in `G1`. -/
  element_from_hash_G1 : Bytes → G1
  /-- The OpenSSL call `SHA256(data, len, out)`. -/
  SHA256 : Bytes → Bytes
  /-- A SHA-256 digest has `SHA256_DIGEST_LENGTH` bytes. -/
  SHA256_length : ∀ m, (SHA256 m).length = SHA256_DIGEST_LENGTH

/-- The global variables of `main.cpp` (lines 16-21): generator, base station
public keys and private keys.  The group order is the parameter `r`. -/
structure State (r : ℕ) (G1 : Type) where
  g : G1
  h1 : G1
  h2 : G1
  b1 : ZMod r
  b2 : ZMod r

section Code

variable {r : ℕ} {G1 GT : Type} [AddCommGroup G1] [Module (ZMod r) G1] [CommGroup GT]

/-- `system_init` (lines 24-49).  The arguments are the three values drawn by
`element_random`, in the order of the calls. -/
def system_init (g : G1) (b1 b2 : ZMod r) : State r G1 :=
  { g := g
    b1 := b1
    b2 := b2
    h1 := b1 • g
    h2 := b2 • g }

/-- `hash_element` (lines 52-56): SHA-256 of the buffer, then
`element_from_hash` into the field of `out` (given here as `from_hash`). -/
def hash_element {α : Type} (L : PBC r G1 GT) (from_hash : Bytes → α) (data : Bytes) : α :=
  let hash := L.SHA256 data
  from_hash hash

/-- One hexadecimal digit, lower case. -/
def hex_digit (n : Nat) : Char :=
  if n < 10 then Char.ofNat (48 + n) else Char.ofNat (87 + n)

/-- The conversion `sprintf(buf, "%02x", b)` of one byte. -/
def sprintf_02x (b : Fin 256) : List Char :=
  [hex_digit (b.val / 16), hex_digit (b.val % 16)]

/-- Result of `device_registration`: the out-parameter `dg`, the local
`hash_total` (computed and then cleared), the local `hash_str` and the line
written to `cout`. -/
structure Registration (G1 : Type) where
  dg : G1
  hash_total : G1
  hash_str : List Char
  stdout : List String

/-- `device_registration` (lines 59-102).  `d` is the value drawn by
`element_random(d)`; `ID_d` is the identifier as a byte string. -/
def device_registration (L : PBC r G1 GT) (st : State r G1) (d : ZMod r) (ID_d : Bytes) :
    Registration G1 :=
  let dg : G1 := d • st.g
  let hash_ID_bytes := L.SHA256 ID_d
  let _hash_ID : G1 := hash_element L L.element_from_hash_G1 hash_ID_bytes
  let dg_bytes := L.element_to_bytes dg
  let concat := hash_ID_bytes ++ dg_bytes
  let hash_total : G1 := hash_element L L.element_from_hash_G1 concat
  let hash_str := (concat.take SHA256_DIGEST_LENGTH).flatMap sprintf_02x
  { dg := dg
    hash_total := hash_total
    hash_str := hash_str
    stdout := ["Device registration complete. Stored hash: " ++ String.mk hash_str] }

/-- Result of steps 4-7 of `pseudonym_generation`. -/
structure Proof (r : ℕ) (G1 : Type) where
  Y : G1
  epsilon : ZMod r
  Z : ZMod r
  valid : Bool

/-- Steps 4-7 of `pseudonym_generation` (lines 125-167) as a function of the
values `x`, `y` they start from: commitment `Y`, challenge `epsilon`, response
`Z` and the comparison `element_cmp(left, right) == 0`. -/
def pseudonym_proof [DecidableEq G1] (L : PBC r G1 GT) (x y : G1) (d delta : ZMod r) :
    Proof r G1 :=
  let Y : G1 := delta • x
  let buffer := L.element_to_bytes x ++ L.element_to_bytes y ++ L.element_to_bytes Y
  let epsilon : ZMod r := hash_element L L.element_from_hash_Zr buffer
  let Z : ZMod r := epsilon * d
  let Z : ZMod r := Z + delta
  let left : G1 := Z • x
  let temp1 : G1 := epsilon • y
  let right : G1 := Y + temp1
  { Y := Y
    epsilon := epsilon
    Z := Z
    valid := decide (left = right) }

/-- Result of `pseudonym_generation`: the out-parameters `x`, `y`, `Y`, `Z`,
the returned `valid` and the line written to `cout`. -/
structure Pseudonym (r : ℕ) (G1 : Type) where
  x : G1
  y : G1
  Y : G1
  Z : ZMod r
  valid : Bool
  stdout : List String

/-- `pseudonym_generation` (lines 105-186).  `gamma` and `delta` are the values
drawn by `element_random`. -/
def pseudonym_generation [DecidableEq G1] (L : PBC r G1 GT) (st : State r G1)
    (d : ZMod r) (dg : G1) (gamma delta : ZMod r) : Pseudonym r G1 :=
  let tilde_x : G1 := st.g
  let _tilde_y : G1 := dg
  let x : G1 := gamma • tilde_x
  let y : G1 := d • x
  let p := pseudonym_proof L x y d delta
  { x := x
    y := y
    Y := p.Y
    Z := p.Z
    valid := p.valid
    stdout :=
      if p.valid then ["Pseudonym generation successful. Pseudonym (x, y) generated."]
      else ["Pseudonym generation failed."] }

/-- Result of `certificate_issuance`: the two out-parameters and the line
written to `cout`. -/
structure Certificate (G1 : Type) where
  cert_zeta_x : G1
  cert_zeta_y : G1
  stdout : List String

/-- `certificate_issuance` (lines 189-198). -/
def certificate_issuance (st : State r G1) (x y : G1) : Certificate G1 :=
  { cert_zeta_x := st.b1 • x
    cert_zeta_y := st.b2 • y
    stdout := ["Certificate issuance complete."] }

/-- Result of `identity_verification`: the returned boolean and the line
written to `cout`. -/
structure Verification where
  result : Bool
  stdout : List String

/-- `identity_verification` (lines 201-235). -/
def identity_verification [DecidableEq GT] (L : PBC r G1 GT) (st : State r G1)
    (x y cert_zeta_x cert_zeta_y : G1) : Verification :=
  let pairing1 := L.pairing_apply cert_zeta_x st.g
  let pairing2 := L.pairing_apply x st.h1
  let pairing3 := L.pairing_apply cert_zeta_y st.g
  let pairing4 := L.pairing_apply y st.h2
  let verify1 : Bool := decide (pairing1 = pairing2)
  let verify2 : Bool := decide (pairing3 = pairing4)
  { result := verify1 && verify2
    stdout :=
      if verify1 && verify2 then ["Identity verification successful."]
      else ["Identity verification failed."] }

/-- What a run of `main` did: the value returned by `pseudonym_generation`,
the certificate when `certificate_issuance` was called, the value returned by
`identity_verification` when it was called, the output and the exit code. -/
structure MainResult (G1 : Type) where
  pseudonym_valid : Bool
  certificate : Option (G1 × G1)
  verification_result : Option Bool
  stdout : List String
  stderr : List String
  exit_code : Int

/-- The part of `main` after the call of `pseudonym_generation` (lines
283-363), as a function of the value `pseudonym_valid` and the pseudonym
`(x, y)`; `out` is what was written to `cout` before. -/
def main_after_pseudonym [DecidableEq GT] (L : PBC r G1 GT) (st : State r G1)
    (pseudonym_valid : Bool) (x y : G1) (out : List String) : MainResult G1 :=
  if !pseudonym_valid then
    { pseudonym_valid := pseudonym_valid
      certificate := none
      verification_result := none
      stdout := out
      stderr := ["Pseudonym generation failed. Exiting."]
      exit_code := -1 }
  else
    let c := certificate_issuance st x y
    let v := identity_verification L st x y c.cert_zeta_x c.cert_zeta_y
    let verification_result := v.result
    if !verification_result then
      { pseudonym_valid := pseudonym_valid
        certificate := some (c.cert_zeta_x, c.cert_zeta_y)
        verification_result := some verification_result
        stdout := out ++ c.stdout ++ v.stdout
        stderr := ["Identity verification failed. Exiting."]
        exit_code := -1 }
    else
      { pseudonym_valid := pseudonym_valid
        certificate := some (c.cert_zeta_x, c.cert_zeta_y)
        verification_result := some verification_result
        stdout := out ++ c.stdout ++ v.stdout
        stderr := []
        exit_code := 0 }

/-- The identifier `"Device123"` of `main` (line 265) as bytes. -/
def Device123 : Bytes := [68, 101, 118, 105, 99, 101, 49, 50, 51]

/-- `main` (lines 250-364).  The arguments are the values drawn by
`element_random` in the order of the calls: `g`, `b1`, `b2` in `system_init`,
`d` in `device_registration`, `gamma`, `delta` in `pseudonym_generation`. -/
def main [DecidableEq G1] [DecidableEq GT] (L : PBC r G1 GT)
    (g : G1) (b1 b2 d gamma delta : ZMod r) : MainResult G1 :=
  let st := system_init g b1 b2
  let ID_d := Device123
  let reg := device_registration L st d ID_d
  let dg := reg.dg
  let p := pseudonym_generation L st d dg gamma delta
  let pseudonym_valid := p.valid
  main_after_pseudonym L st pseudonym_valid p.x p.y (reg.stdout ++ p.stdout)

end Code


section Instance

/-- A SHA-256 stand-in for the small instance: 31 zero bytes followed by the
sum of the message bytes. -/
def digest7 (m : Bytes) : Bytes :=
  List.replicate 31 0 ++ [m.sum]

/-- A small instance of the interface, used to evaluate the program: the
additive group of `ZMod 7` as `G1`, with the product as pairing. -/
def pbc7 : PBC 7 (ZMod 7) (Multiplicative (ZMod 7)) where
  r_prime := by norm_num
  G1_cyclic := ⟨1, fun a => ⟨a, by simp⟩⟩
  pairing_apply := fun a b => Multiplicative.ofAdd (a * b)
  pairing_add_left := by
    intro a b c
    show Multiplicative.ofAdd ((a + b) * c) = _
    rw [add_mul]; rfl
  pairing_add_right := by
    intro a b c
    show Multiplicative.ofAdd (a * (b + c)) = _
    rw [mul_add]; rfl
  pairing_nondegenerate := by
    have h : ∀ a : ZMod 7, a ≠ 0 →
        ∃ b : ZMod 7, Multiplicative.ofAdd (a * b) ≠ (1 : Multiplicative (ZMod 7)) := by
      decide
    exact h
  element_to_bytes := fun a => [Fin.ofNat a.val]
  element_from_hash_Zr := fun m => ((m.map fun b => b.val).sum : ℕ)
  element_from_hash_G1 := fun m => ((m.map fun b => b.val).sum : ℕ)
  SHA256 := digest7
  SHA256_length := by
    intro m
    simp [digest7, SHA256_DIGEST_LENGTH]

end Instance

section Globals

variable {r : ℕ} {G1 GT : Type} [AddCommGroup G1] [Module (ZMod r) G1] [CommGroup GT]

/-- The key-pair predicate on the global state: each public key is the
generator multiplied by its private key. -/
def key_pair_invariant (st : State r G1) : Prop :=
  st.h1 = st.b1 • st.g ∧ st.h2 = st.b2 • st.g

instance [DecidableEq G1] (st : State r G1) : Decidable (key_pair_invariant st) :=
  inferInstanceAs (Decidable (st.h1 = st.b1 • st.g ∧ st.h2 = st.b2 • st.g))

/-- A call of one of the four operations that follow `system_init`, with its
arguments and the values it draws by `element_random`. -/
inductive Call (r : ℕ) (G1 : Type) where
  | device_registration (d : ZMod r) (ID_d : Bytes)
  | pseudonym_generation (d : ZMod r) (dg : G1) (gamma delta : ZMod r)
  | certificate_issuance (x y : G1)
  | identity_verification (x y cert_zeta_x cert_zeta_y : G1)

/-- What a call hands back. -/
inductive Output (r : ℕ) (G1 : Type) where
  | registration (res : Registration G1)
  | pseudonym (res : Pseudonym r G1)
  | certificate (res : Certificate G1)
  | verification (res : Verification)

/-- One call on the global state: the global state after the call and the
result of the call.  In the four function bodies the globals `g`, `h1`, `h2`,
`b1`, `b2` occur only as source operands (lines 63, 110, 194, 195, 207, 208,
215, 216); every destination of `element_mul_zn`, `element_set`,
`element_random`, `element_add` and `pairing_apply` there is a local or an
out-parameter.  The state after the call is therefore the state before. -/
def call [DecidableEq G1] [DecidableEq GT] (L : PBC r G1 GT) (st : State r G1) :
    Call r G1 → State r G1 × Output r G1
  | .device_registration d ID_d => (st, .registration (device_registration L st d ID_d))
  | .pseudonym_generation d dg gamma delta =>
      (st, .pseudonym (pseudonym_generation L st d dg gamma delta))
  | .certificate_issuance x y => (st, .certificate (certificate_issuance st x y))
  | .identity_verification x y cert_zeta_x cert_zeta_y =>
      (st, .verification (identity_verification L st x y cert_zeta_x cert_zeta_y))

/-- The global state after a sequence of calls. -/
def run [DecidableEq G1] [DecidableEq GT] (L : PBC r G1 GT) (st : State r G1) :
    List (Call r G1) → State r G1
  | [] => st
  | c :: cs => run L (call L st c).1 cs

/-- The local `epsilon` of a run of `pseudonym_generation` (lines 144-146):
the challenge computed in step 5 from the values `x`, `y`, `Y` of that run. -/
def pseudonym_generation_epsilon [DecidableEq G1] (L : PBC r G1 GT) (st : State r G1)
    (d : ZMod r) (dg : G1) (gamma delta : ZMod r) : ZMod r :=
  let tilde_x : G1 := st.g
  let _tilde_y : G1 := dg
  let x : G1 := gamma • tilde_x
  let y : G1 := d • x
  (pseudonym_proof L x y d delta).epsilon

/-- The challenge as a function of three serialised group elements: SHA-256
of their concatenation, then `element_from_hash` into `Zr` (lines 138-146 with
`hash_element`, lines 52-56). -/
def challenge_of_bytes (L : PBC r G1 GT) (x_bytes y_bytes Y_bytes : Bytes) : ZMod r :=
  L.element_from_hash_Zr (L.SHA256 (x_bytes ++ y_bytes ++ Y_bytes))

end Globals


/-! ## Consequences of the library interface -/

section Lemmas

variable {r : ℕ} {G1 GT : Type} [AddCommGroup G1] [Module (ZMod r) G1] [CommGroup GT]

theorem pairing_zero_left (L : PBC r G1 GT) (b : G1) : L.pairing_apply 0 b = 1 := by
  have h := L.pairing_add_left 0 0 b
  rw [add_zero] at h
  exact self_eq_mul_right.mp h

theorem pairing_zero_right (L : PBC r G1 GT) (a : G1) : L.pairing_apply a 0 = 1 := by
  have h := L.pairing_add_right a 0 0
  rw [add_zero] at h
  exact self_eq_mul_right.mp h

theorem pairing_nsmul_left (L : PBC r G1 GT) (n : ℕ) (a b : G1) :
    L.pairing_apply (n • a) b = L.pairing_apply a b ^ n := by
  induction n with
  | zero => simp [pairing_zero_left]
  | succ k ih => rw [succ_nsmul, L.pairing_add_left, ih, pow_succ]

theorem pairing_nsmul_right (L : PBC r G1 GT) (n : ℕ) (a b : G1) :
    L.pairing_apply a (n • b) = L.pairing_apply a b ^ n := by
  induction n with
  | zero => simp [pairing_zero_right]
  | succ k ih => rw [succ_nsmul, L.pairing_add_right, ih, pow_succ]

/-- Scalar multiplication by an element of `Zr` is repeated addition. -/
theorem zr_smul_eq_nsmul (L : PBC r G1 GT) (s : ZMod r) (a : G1) : s • a = s.val • a := by
  haveI : NeZero r := ⟨L.r_prime.ne_zero⟩
  conv_lhs => rw [← ZMod.natCast_zmod_val s]
  rw [Nat.cast_smul_eq_nsmul]

theorem pairing_smul_left (L : PBC r G1 GT) (s : ZMod r) (a b : G1) :
    L.pairing_apply (s • a) b = L.pairing_apply a b ^ s.val := by
  rw [zr_smul_eq_nsmul L, pairing_nsmul_left]

theorem pairing_smul_right (L : PBC r G1 GT) (s : ZMod r) (a b : G1) :
    L.pairing_apply a (s • b) = L.pairing_apply a b ^ s.val := by
  rw [zr_smul_eq_nsmul L, pairing_nsmul_right]

/-- A scalar moves from one side of the pairing to the other. -/
theorem pairing_smul_comm (L : PBC r G1 GT) (s : ZMod r) (a b : G1) :
    L.pairing_apply (s • a) b = L.pairing_apply a (s • b) := by
  rw [pairing_smul_left, pairing_smul_right]

theorem pairing_sub_left (L : PBC r G1 GT) (a b c : G1) :
    L.pairing_apply (a - b) c = L.pairing_apply a c * (L.pairing_apply b c)⁻¹ := by
  have h := L.pairing_add_left (a - b) b c
  rw [sub_add_cancel] at h
  rw [h, mul_inv_cancel_right]

/-- In `Zr` with `r` prime, a non-zero scalar annihilates only the identity. -/
theorem zr_smul_eq_zero (L : PBC r G1 GT) (s : ZMod r) (a : G1) (hs : s ≠ 0)
    (h : s • a = 0) : a = 0 := by
  haveI : Fact r.Prime := ⟨L.r_prime⟩
  have h1 : s⁻¹ • (s • a) = a := by
    rw [smul_smul, inv_mul_cancel₀ hs, one_smul]
  rw [← h1, h, smul_zero]

/-- Every element of `G1` is a multiple of any element other than the
identity. -/
theorem G1_generated (L : PBC r G1 GT) (g : G1) (hg : g ≠ 0) (b : G1) :
    ∃ s : ZMod r, b = s • g := by
  haveI : Fact r.Prime := ⟨L.r_prime⟩
  obtain ⟨g0, hg0⟩ := L.G1_cyclic
  obtain ⟨t, ht⟩ := hg0 g
  obtain ⟨u, hu⟩ := hg0 b
  have ht0 : t ≠ 0 := by
    intro h0
    apply hg
    rw [ht, h0, zero_smul]
  refine ⟨u * t⁻¹, ?_⟩
  rw [ht, smul_smul, mul_assoc, inv_mul_cancel₀ ht0, mul_one]
  exact hu

/-- Pairing with an element other than the identity detects the identity. -/
theorem pairing_eq_one_right (L : PBC r G1 GT) (g : G1) (hg : g ≠ 0) (w : G1)
    (h : L.pairing_apply w g = 1) : w = 0 := by
  by_contra hw
  obtain ⟨b, hb⟩ := L.pairing_nondegenerate w hw
  obtain ⟨s, hs⟩ := G1_generated L g hg b
  apply hb
  rw [hs, pairing_smul_right, h, one_pow]

/-- With a generator other than the identity, the pairing equation of
`identity_verification` holds only for the honestly formed certificate
component. -/
theorem pairing_check_sound (L : PBC r G1 GT) (g : G1) (hg : g ≠ 0) (b : ZMod r)
    (x z : G1) (h : L.pairing_apply z g = L.pairing_apply x (b • g)) : z = b • x := by
  have hw : L.pairing_apply (z - b • x) g = 1 := by
    rw [pairing_sub_left, pairing_smul_comm, h, mul_inv_cancel]
  exact sub_eq_zero.mp (pairing_eq_one_right L g hg _ hw)

/-- The response of the Schnorr proof opens the commitment: linearity of the
scalar multiplication. -/
theorem response_opens (x : G1) (d delta epsilon : ZMod r) :
    (epsilon * d + delta) • x = delta • x + epsilon • (d • x) := by
  rw [add_smul, mul_smul, add_comm]

/-- The comparison of step 7 succeeds when `y` is `d * x`. -/
theorem pseudonym_proof_honest [DecidableEq G1] (L : PBC r G1 GT) (x : G1)
    (d delta : ZMod r) : (pseudonym_proof L x (d • x) d delta).valid = true := by
  simp only [pseudonym_proof, decide_eq_true_eq]
  exact response_opens _ _ _ _

/-- The two pairing equations hold for `(b1 * x, b2 * y)` when the public keys
are `b1 * g` and `b2 * g`. -/
theorem issued_certificate_accepted [DecidableEq GT] (L : PBC r G1 GT) (g : G1)
    (b1 b2 : ZMod r) (x y : G1) :
    (identity_verification L (system_init g b1 b2) x y (b1 • x) (b2 • y)).result = true := by
  simp only [identity_verification, system_init, Bool.and_eq_true, decide_eq_true_eq]
  exact ⟨pairing_smul_comm L b1 x g, pairing_smul_comm L b2 y g⟩

/-- Multiples of an element other than the identity are distinct for distinct
scalars. -/
theorem zr_smul_left_cancel (L : PBC r G1 GT) (g : G1) (hg : g ≠ 0) (a b : ZMod r)
    (h : a • g = b • g) : a = b := by
  by_contra hne
  exact hg (zr_smul_eq_zero L (a - b) g (sub_ne_zero.mpr hne) (by rw [sub_smul, h, sub_self]))

/-- A call leaves the global state as it was. -/
theorem call_state [DecidableEq G1] [DecidableEq GT] (L : PBC r G1 GT) (st : State r G1)
    (c : Call r G1) : (call L st c).1 = st := by
  cases c <;> rfl

/-- A sequence of calls leaves the global state as it was. -/
theorem run_state [DecidableEq G1] [DecidableEq GT] (L : PBC r G1 GT) (st : State r G1)
    (cs : List (Call r G1)) : run L st cs = st := by
  induction cs generalizing st with
  | nil => rfl
  | cons c cs ih => rw [run, call_state, ih]

end Lemmas


/-! ## The claims -/

section Claims

variable {r : ℕ} {G1 GT : Type} [AddCommGroup G1] [Module (ZMod r) G1] [CommGroup GT]

/-- C1 (positive proof soundness): for every state (any `g`), device key `d`,
argument `dg` and sampled `gamma`, `delta`, and every library instance (hence
every hash-to-scalar function), `pseudonym_generation` builds `x = gamma*g`,
`y = d*x`, `Y = delta*x`, `Z = delta + eps*d` with `eps = H(x||y||Y)`, these
satisfy `Z*x = Y + eps*y`, and the function returns `true`. -/
theorem pseudonym_generation_sound [DecidableEq G1] (L : PBC r G1 GT) (st : State r G1)
    (d : ZMod r) (dg : G1) (gamma delta : ZMod r) :
    (pseudonym_generation L st d dg gamma delta).x = gamma • st.g ∧
    (pseudonym_generation L st d dg gamma delta).y = d • (gamma • st.g) ∧
    (pseudonym_generation L st d dg gamma delta).Y = delta • (gamma • st.g) ∧
    (pseudonym_generation L st d dg gamma delta).Z =
      delta + hash_element L L.element_from_hash_Zr
        (L.element_to_bytes (gamma • st.g) ++ L.element_to_bytes (d • (gamma • st.g)) ++
          L.element_to_bytes (delta • (gamma • st.g))) * d ∧
    (pseudonym_generation L st d dg gamma delta).Z • (pseudonym_generation L st d dg gamma delta).x =
      (pseudonym_generation L st d dg gamma delta).Y +
        hash_element L L.element_from_hash_Zr
          (L.element_to_bytes (gamma • st.g) ++ L.element_to_bytes (d • (gamma • st.g)) ++
            L.element_to_bytes (delta • (gamma • st.g))) •
          (pseudonym_generation L st d dg gamma delta).y ∧
    (pseudonym_generation L st d dg gamma delta).valid = true := by
  refine ⟨rfl, rfl, rfl, ?_, ?_, ?_⟩
  · simp only [pseudonym_generation, pseudonym_proof]
    rw [add_comm]
  · simp only [pseudonym_generation, pseudonym_proof]
    exact response_opens _ _ _ _
  · exact pseudonym_proof_honest L _ d delta

/-- C2 (certificate correctness): for every `g`, `b1`, `b2` with the state set
by `system_init` and every pseudonym `(x, y)`, the certificate produced by
`certificate_issuance` is accepted by `identity_verification`. -/
theorem certificate_issuance_verifies [DecidableEq GT] (L : PBC r G1 GT) (g : G1)
    (b1 b2 : ZMod r) (x y : G1) :
    (identity_verification L (system_init g b1 b2) x y
      (certificate_issuance (system_init g b1 b2) x y).cert_zeta_x
      (certificate_issuance (system_init g b1 b2) x y).cert_zeta_y).result = true := by
  exact issued_certificate_accepted L g b1 b2 x y

/-- C3 (end-to-end scenario): for the identifier "Device123", every outcome of
the samples `g`, `b1`, `b2`, `d`, `gamma`, `delta` and every library instance,
`main` gets `true` from `pseudonym_generation`, issues the certificate, gets
`true` from `identity_verification`, writes nothing to `cerr` and returns 0. -/
theorem main_succeeds [DecidableEq G1] [DecidableEq GT] (L : PBC r G1 GT) (g : G1)
    (b1 b2 d gamma delta : ZMod r) :
    (pseudonym_generation L (system_init g b1 b2) d
      (device_registration L (system_init g b1 b2) d Device123).dg gamma delta).valid = true ∧
    (main L g b1 b2 d gamma delta).pseudonym_valid = true ∧
    (main L g b1 b2 d gamma delta).certificate =
      some (b1 • (gamma • g), b2 • (d • (gamma • g))) ∧
    (main L g b1 b2 d gamma delta).verification_result = some true ∧
    (main L g b1 b2 d gamma delta).stderr = [] ∧
    (main L g b1 b2 d gamma delta).exit_code = 0 := by
  have hv : (pseudonym_generation L (system_init g b1 b2) d
      (device_registration L (system_init g b1 b2) d Device123).dg gamma delta).valid = true :=
    pseudonym_proof_honest L _ d delta
  have hc : (identity_verification L (system_init g b1 b2) (gamma • g) (d • (gamma • g))
      (certificate_issuance (system_init g b1 b2) (gamma • g) (d • (gamma • g))).cert_zeta_x
      (certificate_issuance (system_init g b1 b2) (gamma • g) (d • (gamma • g))).cert_zeta_y).result
        = true :=
    issued_certificate_accepted L g b1 b2 (gamma • g) (d • (gamma • g))
  have hx : (pseudonym_generation L (system_init g b1 b2) d
      (device_registration L (system_init g b1 b2) d Device123).dg gamma delta).x = gamma • g := rfl
  have hy : (pseudonym_generation L (system_init g b1 b2) d
      (device_registration L (system_init g b1 b2) d Device123).dg gamma delta).y =
        d • (gamma • g) := rfl
  refine ⟨hv, ?_, ?_, ?_, ?_, ?_⟩ <;>
    simp only [main, main_after_pseudonym, hv, hx, hy, hc] <;> simp [certificate_issuance, system_init]

/-- C4: `identity_verification` returns `true` exactly when both pairing
equations `e(zx, g) = e(x, h1)` and `e(zy, g) = e(y, h2)` hold, in every
state. -/
theorem identity_verification_iff [DecidableEq GT] (L : PBC r G1 GT) (st : State r G1)
    (x y cert_zeta_x cert_zeta_y : G1) :
    (identity_verification L st x y cert_zeta_x cert_zeta_y).result = true ↔
      L.pairing_apply cert_zeta_x st.g = L.pairing_apply x st.h1 ∧
      L.pairing_apply cert_zeta_y st.g = L.pairing_apply y st.h2 := by
  simp only [identity_verification, Bool.and_eq_true, decide_eq_true_eq]


/-- C5, the claim as stated fails: with the identity as generator (`g = 0`,
so `h1 = h2 = 0`) and `b1 = b2 = 1`, `x = y = 1`, the forged `zx = 2` (not
`b1 * x = 1`) is accepted. -/
theorem identity_verification_accepts_forgery_at_identity_generator :
    (identity_verification pbc7 (system_init 0 1 1) 1 1 2 1).result = true ∧
    (2 : ZMod 7) ≠ (1 : ZMod 7) • (1 : ZMod 7) := by
  decide

/-- C5 (certificate rejection), amended: for every state produced by
`system_init` whose generator `g` is not the identity, and every pseudonym
`(x, y)`, `identity_verification(x, y, zx, zy)` returns `true` only if
`zx = b1*x` and `zy = b2*y`. -/
theorem identity_verification_only_honest [DecidableEq GT] (L : PBC r G1 GT) (g : G1)
    (hg : g ≠ 0) (b1 b2 : ZMod r) (x y zx zy : G1)
    (h : (identity_verification L (system_init g b1 b2) x y zx zy).result = true) :
    zx = b1 • x ∧ zy = b2 • y := by
  simp only [identity_verification, system_init, Bool.and_eq_true, decide_eq_true_eq] at h
  exact ⟨pairing_check_sound L g hg b1 x zx h.1, pairing_check_sound L g hg b2 y zy h.2⟩

/-- C5, the amended claim at a concrete input: `g = 3`, `b1 = 2`, `b2 = 5`,
`x = 1`, `y = 4`, `zx = 2`, `zy = 6`. -/
theorem identity_verification_only_honest_witness :
    (3 : ZMod 7) ≠ 0 ∧
    (identity_verification pbc7 (system_init 3 2 5) 1 4 2 6).result = true ∧
    ((2 : ZMod 7) = (2 : ZMod 7) • (1 : ZMod 7) ∧ (6 : ZMod 7) = (5 : ZMod 7) • (4 : ZMod 7)) :=
  ⟨by decide, by decide,
    identity_verification_only_honest pbc7 3 (by decide) 2 5 1 4 2 6 (by decide)⟩

/-- C6, the claim as stated fails in three ways: with the identity as
generator, the certificate of `(1, 1)` is accepted for `(2, 3)`; with
`b1 = 0`, it is accepted for `(2, 1)`; with `b2 = 0`, it is accepted for
`(1, 2)`. -/
theorem certificate_accepted_for_other_pseudonym :
    ((2 : ZMod 7), (3 : ZMod 7)) ≠ (1, 1) ∧
    (identity_verification pbc7 (system_init 0 1 1) 2 3
      (certificate_issuance (system_init 0 1 1 : State 7 (ZMod 7)) (1 : ZMod 7) (1 : ZMod 7)).cert_zeta_x
      (certificate_issuance (system_init 0 1 1 : State 7 (ZMod 7)) (1 : ZMod 7) (1 : ZMod 7)).cert_zeta_y).result
        = true ∧
    ((2 : ZMod 7), (1 : ZMod 7)) ≠ (1, 1) ∧
    (identity_verification pbc7 (system_init 1 0 1) 2 1
      (certificate_issuance (system_init 1 0 1 : State 7 (ZMod 7)) (1 : ZMod 7) (1 : ZMod 7)).cert_zeta_x
      (certificate_issuance (system_init 1 0 1 : State 7 (ZMod 7)) (1 : ZMod 7) (1 : ZMod 7)).cert_zeta_y).result
        = true ∧
    ((1 : ZMod 7), (2 : ZMod 7)) ≠ (1, 1) ∧
    (identity_verification pbc7 (system_init 1 1 0) 1 2
      (certificate_issuance (system_init 1 1 0 : State 7 (ZMod 7)) (1 : ZMod 7) (1 : ZMod 7)).cert_zeta_x
      (certificate_issuance (system_init 1 1 0 : State 7 (ZMod 7)) (1 : ZMod 7) (1 : ZMod 7)).cert_zeta_y).result
        = true := by
  decide

/-- C6 (a certificate is bound to one pseudonym), amended: for every state
produced by `system_init` with `g` not the identity and `b1`, `b2` not zero,
every pseudonym `(x, y)` with its certificate from `certificate_issuance`, and
every other pseudonym `(x', y')`, `identity_verification(x', y', zx, zy)`
returns `false`. -/
theorem certificate_bound_to_pseudonym [DecidableEq GT] (L : PBC r G1 GT) (g : G1)
    (hg : g ≠ 0) (b1 b2 : ZMod r) (hb1 : b1 ≠ 0) (hb2 : b2 ≠ 0) (x y x' y' : G1)
    (hne : (x', y') ≠ (x, y)) :
    (identity_verification L (system_init g b1 b2) x' y'
      (certificate_issuance (system_init g b1 b2) x y).cert_zeta_x
      (certificate_issuance (system_init g b1 b2) x y).cert_zeta_y).result = false := by
  rw [← Bool.not_eq_true]
  intro h
  simp only [identity_verification, certificate_issuance, system_init, Bool.and_eq_true,
    decide_eq_true_eq] at h
  have h1 := pairing_check_sound L g hg b1 x' (b1 • x) h.1
  have h2 := pairing_check_sound L g hg b2 y' (b2 • y) h.2
  have e1 : x - x' = 0 := zr_smul_eq_zero L b1 _ hb1 (by rw [smul_sub, h1, sub_self])
  have e2 : y - y' = 0 := zr_smul_eq_zero L b2 _ hb2 (by rw [smul_sub, h2, sub_self])
  apply hne
  rw [sub_eq_zero.mp e1, sub_eq_zero.mp e2]

/-- C6, the amended claim at a concrete input: `g = 3`, `b1 = 2`, `b2 = 5`,
the certificate of `(1, 4)` checked against `(1, 5)`. -/
theorem certificate_bound_to_pseudonym_witness :
    ((1 : ZMod 7), (5 : ZMod 7)) ≠ (1, 4) ∧
    (identity_verification pbc7 (system_init 3 2 5) 1 5
      (certificate_issuance (system_init 3 2 5 : State 7 (ZMod 7)) (1 : ZMod 7) (4 : ZMod 7)).cert_zeta_x
      (certificate_issuance (system_init 3 2 5 : State 7 (ZMod 7)) (1 : ZMod 7) (4 : ZMod 7)).cert_zeta_y).result
        = false :=
  ⟨by decide,
    certificate_bound_to_pseudonym pbc7 3 (by decide) 2 5 (by decide) (by decide) 1 4 1 5
      (by decide)⟩

/-- C7, the claim as stated fails: with `gamma = 0` (state `g = 3`, `b1 = 2`,
`b2 = 5`, device key `d = 4`, `delta = 6`) the base `x` is the identity and
`pseudonym_generation` returns `true`. -/
theorem pseudonym_generation_accepts_identity :
    (pseudonym_generation pbc7 (system_init 3 2 5) 4 (4 • 3) 0 6).x = 0 ∧
    (pseudonym_generation pbc7 (system_init 3 2 5) 4 (4 • 3) 0 6).valid = true := by
  decide

/-- C7 (degenerate input), amended: `pseudonym_generation` has no check of the
base; whenever `x = gamma*g` is the identity, it returns `true` with
`x`, `y` and `Y` all the identity. -/
theorem pseudonym_generation_degenerate [DecidableEq G1] (L : PBC r G1 GT)
    (st : State r G1) (d : ZMod r) (dg : G1) (gamma delta : ZMod r)
    (hx : gamma • st.g = 0) :
    (pseudonym_generation L st d dg gamma delta).x = 0 ∧
    (pseudonym_generation L st d dg gamma delta).y = 0 ∧
    (pseudonym_generation L st d dg gamma delta).Y = 0 ∧
    (pseudonym_generation L st d dg gamma delta).valid = true := by
  refine ⟨hx, ?_, ?_, pseudonym_proof_honest L _ d delta⟩
  · show d • (gamma • st.g) = 0
    rw [hx, smul_zero]
  · show delta • (gamma • st.g) = 0
    rw [hx, smul_zero]

/-- C7, the amended claim at a concrete input: `g = 0` with `gamma = 2`. -/
theorem pseudonym_generation_degenerate_witness :
    (2 : ZMod 7) • (system_init (0 : ZMod 7) (2 : ZMod 7) 5).g = 0 ∧
    ((pseudonym_generation pbc7 (system_init 0 2 5) 4 0 2 6).x = 0 ∧
     (pseudonym_generation pbc7 (system_init 0 2 5) 4 0 2 6).y = 0 ∧
     (pseudonym_generation pbc7 (system_init 0 2 5) 4 0 2 6).Y = 0 ∧
     (pseudonym_generation pbc7 (system_init 0 2 5) 4 0 2 6).valid = true) :=
  ⟨by decide, pseudonym_generation_degenerate pbc7 (system_init 0 2 5) 4 0 2 6 (by decide)⟩


/-- C8 (registration commitment), what the code does: `device_registration`
sets `dg = d*g`, but the string it prints after "Stored hash: " is the
hexadecimal form of the first 32 bytes of `concat`, that is of `SHA256(ID_d)`
alone; it is the same for every device key `d`, so it does not depend on
`dg`.  The commitment `hash_total = H(H(ID_d) || dg)` is computed and not
printed. -/
theorem device_registration_prints_id_digest (L : PBC r G1 GT) (st : State r G1)
    (d d' : ZMod r) (ID_d : Bytes) :
    (device_registration L st d ID_d).dg = d • st.g ∧
    (device_registration L st d ID_d).hash_total =
      hash_element L L.element_from_hash_G1
        (L.SHA256 ID_d ++ L.element_to_bytes (d • st.g)) ∧
    (device_registration L st d ID_d).hash_str = (L.SHA256 ID_d).flatMap sprintf_02x ∧
    (device_registration L st d ID_d).stdout = (device_registration L st d' ID_d).stdout := by
  have hs : ∀ e : ZMod r,
      (device_registration L st e ID_d).hash_str = (L.SHA256 ID_d).flatMap sprintf_02x := by
    intro e
    simp only [device_registration]
    rw [List.take_left' (L.SHA256_length ID_d)]
  refine ⟨rfl, rfl, hs d, ?_⟩
  show ["Device registration complete. Stored hash: " ++
      String.mk (device_registration L st d ID_d).hash_str] =
    ["Device registration complete. Stored hash: " ++
      String.mk (device_registration L st d' ID_d).hash_str]
  rw [hs d, hs d']

/-- C9 (negative proof soundness): in the prime-order group, for every `d`,
`gamma`, `delta` with `x = gamma*g`, and every `y'` other than `d*x` put in
the place of `y`, steps 4-7 of `pseudonym_generation` compute `Y = delta*x`,
`eps = H(x||y'||Y)`, `Z = delta + eps*d`, and the check `Z*x = Y + eps*y'`
returns `false` whenever `eps` is not zero (and `true` when it is). -/
theorem pseudonym_proof_rejects [DecidableEq G1] (L : PBC r G1 GT) (g : G1)
    (d gamma delta : ZMod r) (y' : G1) (hy : y' ≠ d • (gamma • g)) :
    (pseudonym_proof L (gamma • g) y' d delta).Y = delta • (gamma • g) ∧
    (pseudonym_proof L (gamma • g) y' d delta).epsilon =
      hash_element L L.element_from_hash_Zr
        (L.element_to_bytes (gamma • g) ++ L.element_to_bytes y' ++
          L.element_to_bytes (delta • (gamma • g))) ∧
    (pseudonym_proof L (gamma • g) y' d delta).Z =
      delta + (pseudonym_proof L (gamma • g) y' d delta).epsilon * d ∧
    ((pseudonym_proof L (gamma • g) y' d delta).epsilon ≠ 0 →
      (pseudonym_proof L (gamma • g) y' d delta).valid = false) ∧
    ((pseudonym_proof L (gamma • g) y' d delta).epsilon = 0 →
      (pseudonym_proof L (gamma • g) y' d delta).valid = true) := by
  refine ⟨rfl, rfl, ?_, ?_, ?_⟩
  · simp only [pseudonym_proof]
    rw [add_comm]
  · intro he
    rw [← Bool.not_eq_true]
    intro hv
    simp only [pseudonym_proof, decide_eq_true_eq] at hv he
    rw [add_smul, mul_smul, add_comm] at hv
    have h0 := add_left_cancel hv
    apply hy
    have h1 := zr_smul_eq_zero L _ (y' - d • (gamma • g)) he (by rw [smul_sub, h0, sub_self])
    exact sub_eq_zero.mp h1
  · intro he
    simp only [pseudonym_proof, decide_eq_true_eq] at he ⊢
    rw [he, zero_mul, zero_add, zero_smul, add_zero]

/-- C9 at a concrete input: `g = 3`, `gamma = 1`, `d = 4`, `delta = 6` and
`y' = 2` (while `d*x = 5`); the challenge is `2` and the check fails. -/
theorem pseudonym_proof_rejects_witness :
    (2 : ZMod 7) ≠ (4 : ZMod 7) • ((1 : ZMod 7) • (3 : ZMod 7)) ∧
    (pseudonym_proof pbc7 ((1 : ZMod 7) • (3 : ZMod 7)) 2 4 6).epsilon ≠ 0 ∧
    (pseudonym_proof pbc7 ((1 : ZMod 7) • (3 : ZMod 7)) 2 4 6).valid = false :=
  ⟨by decide, by decide,
    (pseudonym_proof_rejects pbc7 3 4 1 6 2 (by decide)).2.2.2.1 (by decide)⟩

/-- C10 (hard gate): `main` continues after `pseudonym_generation` with the
value it returned; if that value is `false`, `main` returns -1, issues no
certificate, does not call `identity_verification` and writes nothing more to
`cout`; a certificate or a verification result exists only if the value was
`true`; and `main` returns 0 exactly when `pseudonym_generation` and
`identity_verification` (on the issued certificate) both returned `true`. -/
theorem main_hard_gate [DecidableEq G1] [DecidableEq GT] (L : PBC r G1 GT) (g : G1)
    (b1 b2 d gamma delta : ZMod r) (st : State r G1) (pseudonym_valid : Bool) (x y : G1)
    (out : List String) :
    main L g b1 b2 d gamma delta =
      main_after_pseudonym L (system_init g b1 b2)
        (pseudonym_generation L (system_init g b1 b2) d
          (device_registration L (system_init g b1 b2) d Device123).dg gamma delta).valid
        (pseudonym_generation L (system_init g b1 b2) d
          (device_registration L (system_init g b1 b2) d Device123).dg gamma delta).x
        (pseudonym_generation L (system_init g b1 b2) d
          (device_registration L (system_init g b1 b2) d Device123).dg gamma delta).y
        ((device_registration L (system_init g b1 b2) d Device123).stdout ++
          (pseudonym_generation L (system_init g b1 b2) d
            (device_registration L (system_init g b1 b2) d Device123).dg gamma delta).stdout) ∧
    ((main_after_pseudonym L st false x y out).exit_code = -1 ∧
      (main_after_pseudonym L st false x y out).certificate = none ∧
      (main_after_pseudonym L st false x y out).verification_result = none ∧
      (main_after_pseudonym L st false x y out).stdout = out) ∧
    ((main_after_pseudonym L st pseudonym_valid x y out).certificate ≠ none →
      pseudonym_valid = true) ∧
    ((main_after_pseudonym L st pseudonym_valid x y out).verification_result ≠ none →
      pseudonym_valid = true) ∧
    ((main_after_pseudonym L st pseudonym_valid x y out).exit_code = 0 ↔
      pseudonym_valid = true ∧
      (identity_verification L st x y (certificate_issuance st x y).cert_zeta_x
        (certificate_issuance st x y).cert_zeta_y).result = true) ∧
    ((main_after_pseudonym L st pseudonym_valid x y out).exit_code = 0 ∨
      (main_after_pseudonym L st pseudonym_valid x y out).exit_code = -1) := by
  refine ⟨rfl, ⟨rfl, rfl, rfl, rfl⟩, ?_, ?_, ?_, ?_⟩
  · cases pseudonym_valid
    · intro h; exact absurd rfl h
    · intro _; rfl
  · cases pseudonym_valid
    · intro h; exact absurd rfl h
    · intro _; rfl
  · cases pseudonym_valid
    · simp [main_after_pseudonym]
    · cases hv : (identity_verification L st x y (certificate_issuance st x y).cert_zeta_x
        (certificate_issuance st x y).cert_zeta_y).result <;>
        simp [main_after_pseudonym, hv]
  · cases pseudonym_valid
    · simp [main_after_pseudonym]
    · cases hv : (identity_verification L st x y (certificate_issuance st x y).cert_zeta_x
        (certificate_issuance st x y).cert_zeta_y).result <;>
        simp [main_after_pseudonym, hv]

/-- C11 (key-pair invariant): after `system_init`, `h1 = b1*g` and
`h2 = b2*g`; each call of `device_registration`, `pseudonym_generation`,
`certificate_issuance` or `identity_verification` leaves `g`, `b1`, `b2`,
`h1`, `h2` as they were, so the predicate holds after the call whenever it
held before, and it holds after every sequence of calls that follows
`system_init`. -/
theorem key_pair_invariant_preserved [DecidableEq G1] [DecidableEq GT] (L : PBC r G1 GT)
    (g : G1) (b1 b2 : ZMod r) (st : State r G1) (c : Call r G1) (cs : List (Call r G1)) :
    key_pair_invariant (system_init g b1 b2) ∧
    ((call L st c).1.g = st.g ∧ (call L st c).1.b1 = st.b1 ∧ (call L st c).1.b2 = st.b2 ∧
      (call L st c).1.h1 = st.h1 ∧ (call L st c).1.h2 = st.h2) ∧
    (key_pair_invariant st → key_pair_invariant (call L st c).1) ∧
    (key_pair_invariant st → key_pair_invariant (run L st cs)) ∧
    run L (system_init g b1 b2) cs = system_init g b1 b2 ∧
    key_pair_invariant (run L (system_init g b1 b2) cs) := by
  have h0 : key_pair_invariant (system_init g b1 b2) := ⟨rfl, rfl⟩
  refine ⟨h0, ?_, ?_, ?_, run_state L _ cs, ?_⟩
  · rw [call_state]
    exact ⟨rfl, rfl, rfl, rfl, rfl⟩
  · intro h
    rw [call_state]
    exact h
  · intro h
    rw [run_state]
    exact h
  · rw [run_state]
    exact h0

/-- C12: `certificate_issuance` outputs exactly `zx = b1*x` and `zy = b2*y`;
it takes no sampled value, and its result is the same for any two states with
the same `b1`, `b2` (whatever `g`, `h1`, `h2` are) and the same `(x, y)`. -/
theorem certificate_issuance_pure (g h1 h2 g' h1' h2' : G1) (b1 b2 : ZMod r) (x y : G1) :
    (certificate_issuance { g := g, h1 := h1, h2 := h2, b1 := b1, b2 := b2 } x y).cert_zeta_x
      = b1 • x ∧
    (certificate_issuance { g := g, h1 := h1, h2 := h2, b1 := b1, b2 := b2 } x y).cert_zeta_y
      = b2 • y ∧
    certificate_issuance { g := g, h1 := h1, h2 := h2, b1 := b1, b2 := b2 } x y =
      certificate_issuance { g := g', h1 := h1', h2 := h2', b1 := b1, b2 := b2 } x y :=
  ⟨rfl, rfl, rfl⟩

/-- C13 (transcript values): for every `d`, `gamma`, `delta`,
`pseudonym_generation` outputs `x = gamma*g`, `y = d*x`, `Y = delta*x` and
`Z = delta + eps*d` in `Zr`, where `eps` is `element_from_hash` of the SHA-256
digest of `serialize(x) || serialize(y) || serialize(Y)`, in that order; the
local `epsilon` of the run is that `eps`. -/
theorem pseudonym_generation_transcript [DecidableEq G1] (L : PBC r G1 GT)
    (st : State r G1) (d : ZMod r) (dg : G1) (gamma delta : ZMod r) :
    (pseudonym_generation L st d dg gamma delta).x = gamma • st.g ∧
    (pseudonym_generation L st d dg gamma delta).y =
      d • (pseudonym_generation L st d dg gamma delta).x ∧
    (pseudonym_generation L st d dg gamma delta).Y =
      delta • (pseudonym_generation L st d dg gamma delta).x ∧
    pseudonym_generation_epsilon L st d dg gamma delta =
      L.element_from_hash_Zr (L.SHA256
        (L.element_to_bytes (pseudonym_generation L st d dg gamma delta).x ++
          L.element_to_bytes (pseudonym_generation L st d dg gamma delta).y ++
          L.element_to_bytes (pseudonym_generation L st d dg gamma delta).Y)) ∧
    (pseudonym_generation L st d dg gamma delta).Z =
      delta + L.element_from_hash_Zr (L.SHA256
        (L.element_to_bytes (pseudonym_generation L st d dg gamma delta).x ++
          L.element_to_bytes (pseudonym_generation L st d dg gamma delta).y ++
          L.element_to_bytes (pseudonym_generation L st d dg gamma delta).Y)) * d := by
  refine ⟨rfl, rfl, rfl, rfl, ?_⟩
  simp only [pseudonym_generation, pseudonym_proof, hash_element]
  rw [add_comm]

/-- C14 (determinism of the challenge): the challenge of a run of
`pseudonym_generation` is a function of the serialised `(x, y, Y)` only, and
two runs that reach the same `(x, y, Y)` compute the same challenge, whatever
the states, `d`, `dg`, `gamma` and `delta` of the two runs were. -/
theorem challenge_deterministic [DecidableEq G1] (L : PBC r G1 GT) (st st' : State r G1)
    (d d' : ZMod r) (dg dg' : G1) (gamma gamma' delta delta' : ZMod r)
    (hx : (pseudonym_generation L st d dg gamma delta).x =
      (pseudonym_generation L st' d' dg' gamma' delta').x)
    (hy : (pseudonym_generation L st d dg gamma delta).y =
      (pseudonym_generation L st' d' dg' gamma' delta').y)
    (hY : (pseudonym_generation L st d dg gamma delta).Y =
      (pseudonym_generation L st' d' dg' gamma' delta').Y) :
    pseudonym_generation_epsilon L st d dg gamma delta =
      challenge_of_bytes L
        (L.element_to_bytes (pseudonym_generation L st d dg gamma delta).x)
        (L.element_to_bytes (pseudonym_generation L st d dg gamma delta).y)
        (L.element_to_bytes (pseudonym_generation L st d dg gamma delta).Y) ∧
    pseudonym_generation_epsilon L st d dg gamma delta =
      pseudonym_generation_epsilon L st' d' dg' gamma' delta' := by
  have key : ∀ (s : State r G1) (e : ZMod r) (eg : G1) (ga de : ZMod r),
      pseudonym_generation_epsilon L s e eg ga de =
        challenge_of_bytes L
          (L.element_to_bytes (pseudonym_generation L s e eg ga de).x)
          (L.element_to_bytes (pseudonym_generation L s e eg ga de).y)
          (L.element_to_bytes (pseudonym_generation L s e eg ga de).Y) :=
    fun _ _ _ _ _ => rfl
  refine ⟨key st d dg gamma delta, ?_⟩
  rw [key st d dg gamma delta, key st' d' dg' gamma' delta', hx, hy, hY]

/-- C14 at a concrete input: the runs with `g = 1`, `gamma = 3`, `dg = 4` and
with `g = 3`, `gamma = 1`, `dg = 0` (both `d = 4`, `delta = 6`) reach the same
`(x, y, Y) = (3, 5, 4)` and compute the same challenge. -/
theorem challenge_deterministic_witness :
    (pseudonym_generation pbc7 (system_init 1 2 5) 4 4 3 6).x = 3 ∧
    (pseudonym_generation pbc7 (system_init 3 1 1) 4 0 1 6).x = 3 ∧
    pseudonym_generation_epsilon pbc7 (system_init 1 2 5) 4 4 3 6 =
      pseudonym_generation_epsilon pbc7 (system_init 3 1 1) 4 0 1 6 :=
  ⟨by decide, by decide,
    (challenge_deterministic pbc7 (system_init 1 2 5) (system_init 3 1 1) 4 4 4 0 3 1 6 6
      (by decide) (by decide) (by decide)).2⟩

/-- C15, the claim as stated fails: with the identity as generator (`g = 0`)
the runs with `gamma1 = 1` and `gamma2 = 2` produce the same `x`. -/
theorem pseudonym_generation_same_base_at_identity :
    (1 : ZMod 7) ≠ 2 ∧
    (pseudonym_generation pbc7 (system_init 0 2 5) 4 0 1 6).x =
      (pseudonym_generation pbc7 (system_init 0 2 5) 4 0 2 3).x := by
  decide

/-- C15 (fresh pseudonym per session), amended: for every state produced by
`system_init` whose generator `g` is not the identity, two runs of
`pseudonym_generation` for the same device whose sampled `gamma1` and `gamma2`
differ in `Zr` produce different `x` values. -/
theorem pseudonym_generation_fresh [DecidableEq G1] (L : PBC r G1 GT) (g : G1) (hg : g ≠ 0)
    (b1 b2 d : ZMod r) (dg : G1) (gamma1 gamma2 delta1 delta2 : ZMod r)
    (hne : gamma1 ≠ gamma2) :
    (pseudonym_generation L (system_init g b1 b2) d dg gamma1 delta1).x ≠
      (pseudonym_generation L (system_init g b1 b2) d dg gamma2 delta2).x := by
  intro h
  exact hne (zr_smul_left_cancel L g hg gamma1 gamma2 h)

/-- C15, the amended claim at a concrete input: `g = 3`, `gamma1 = 1`,
`gamma2 = 2`. -/
theorem pseudonym_generation_fresh_witness :
    (3 : ZMod 7) ≠ 0 ∧ (1 : ZMod 7) ≠ 2 ∧
    (pseudonym_generation pbc7 (system_init 3 2 5) 4 5 1 6).x ≠
      (pseudonym_generation pbc7 (system_init 3 2 5) 4 5 2 3).x :=
  ⟨by decide, by decide,
    pseudonym_generation_fresh pbc7 3 (by decide) 2 5 4 5 1 2 6 3 (by decide)⟩

/-- C16: for every state set by `system_init` (so `h1 = b1*g`, `h2 = b2*g`)
and all scalars `s`, `t`, the tuple `(s*g, t*g, s*h1, t*h2)`, built from the
public values `g`, `h1`, `h2` alone, is accepted by
`identity_verification`. -/
theorem public_values_accepted [DecidableEq GT] (L : PBC r G1 GT) (g : G1)
    (b1 b2 s t : ZMod r) :
    (identity_verification L (system_init g b1 b2)
      (s • (system_init g b1 b2).g) (t • (system_init g b1 b2).g)
      (s • (system_init g b1 b2).h1) (t • (system_init g b1 b2).h2)).result = true := by
  simp only [identity_verification, system_init, Bool.and_eq_true, decide_eq_true_eq]
  constructor
  · rw [pairing_smul_comm L s (b1 • g) g, pairing_smul_comm L b1 g (s • g),
      pairing_smul_comm L s g (b1 • g), smul_comm s b1 g]
  · rw [pairing_smul_comm L t (b2 • g) g, pairing_smul_comm L b2 g (t • g),
      pairing_smul_comm L t g (b2 • g), smul_comm t b2 g]

/-- C17: for every device key `d` and any two runs of `pseudonym_generation`
in the same state, with scalars `gamma1`, `gamma2` giving `(x1, y1)` and
`(x2, y2)`, the pairing satisfies `e(x1, y2) = e(x2, y1)`. -/
theorem pseudonyms_linked [DecidableEq G1] (L : PBC r G1 GT) (st : State r G1) (d : ZMod r)
    (dg1 dg2 : G1) (gamma1 gamma2 delta1 delta2 : ZMod r) :
    L.pairing_apply (pseudonym_generation L st d dg1 gamma1 delta1).x
        (pseudonym_generation L st d dg2 gamma2 delta2).y =
      L.pairing_apply (pseudonym_generation L st d dg2 gamma2 delta2).x
        (pseudonym_generation L st d dg1 gamma1 delta1).y := by
  show L.pairing_apply (gamma1 • st.g) (d • (gamma2 • st.g)) =
    L.pairing_apply (gamma2 • st.g) (d • (gamma1 • st.g))
  rw [pairing_smul_comm L gamma1, pairing_smul_comm L gamma2]
  congr 1
  rw [smul_smul, smul_smul, smul_smul, smul_smul]
  congr 1
  ring

/-- C18: the outputs `(x, y, Y, Z)`, the returned boolean and the printed line
of `pseudonym_generation` are the same for every value of the argument `dg`;
the argument is copied into `tilde_y` and takes no part in any later step. -/
theorem pseudonym_generation_ignores_dg [DecidableEq G1] (L : PBC r G1 GT) (st : State r G1)
    (d : ZMod r) (dg dg' : G1) (gamma delta : ZMod r) :
    pseudonym_generation L st d dg gamma delta = pseudonym_generation L st d dg' gamma delta ∧
    pseudonym_generation_epsilon L st d dg gamma delta =
      pseudonym_generation_epsilon L st d dg' gamma delta :=
  ⟨rfl, rfl⟩

/-- C19: for every `d`, `gamma`, `delta` and state, with `dg = d*g` from
`device_registration` and `(x, y)` from `pseudonym_generation`,
`y = gamma*dg` and `e(y, g) = e(x, dg)`. -/
theorem pseudonym_consistent_with_key [DecidableEq G1] (L : PBC r G1 GT) (st : State r G1)
    (d : ZMod r) (ID_d : Bytes) (gamma delta : ZMod r) :
    (device_registration L st d ID_d).dg = d • st.g ∧
    (pseudonym_generation L st d (device_registration L st d ID_d).dg gamma delta).y =
      gamma • (device_registration L st d ID_d).dg ∧
    L.pairing_apply
        (pseudonym_generation L st d (device_registration L st d ID_d).dg gamma delta).y st.g =
      L.pairing_apply
        (pseudonym_generation L st d (device_registration L st d ID_d).dg gamma delta).x
        (device_registration L st d ID_d).dg := by
  refine ⟨rfl, ?_, ?_⟩
  · show d • (gamma • st.g) = gamma • (d • st.g)
    rw [smul_comm]
  · show L.pairing_apply (d • (gamma • st.g)) st.g = L.pairing_apply (gamma • st.g) (d • st.g)
    exact pairing_smul_comm L d (gamma • st.g) st.g

end Claims

end BECS
